import Mathlib

/-!
# Verification of the jarss per-source fetch cache

Shallow embedding of `src/cache.rs` and the fetch loop of `src/main.rs`:
the `SiteCache` record, the conditional-fetch operation `query_site`, the
bulk save of `CacheManager::save`, the persistent store
(`SiteCache::load_for_site` / `save_for_site` and `cache_file_for_name`),
and theorems checking the specification's claims against them.

Modelling conventions:
- `SystemTime` is modelled as `Nat` seconds since the epoch (the code only
  adds whole-second `Duration`s and compares times).
- `HashMap<Box<str>, Box<str>>` is modelled as an association list
  `List (String × String)` in insertion order.
- The HTTP transport is external to the repository; a single exchange is
  modelled by a `FetchOutcome` value describing what the transport returned.
- Header values arriving from the network are `HeaderVal`: either valid
  text (`HeaderValue::to_str` succeeds) or invalid bytes (it fails).
-/

namespace Jarss

/-- The cached per-site state, from `struct SiteCache` in `src/cache.rs`
(field order as declared there). Times are seconds since the epoch. -/
structure SiteCache where
  /-- When the last `retry-after` said to retry, if we have been 429ed. -/
  last_retry_after : Option Nat
  /-- The headers from the most recent successful fetch. -/
  last_headers : Option (List (String × String))
  /-- The body of the most recent successful fetch. -/
  last_body : Option String
  /-- The timestamp of the most recent successful fetch. -/
  last_fetch_time : Option Nat
  deriving Repr, DecidableEq

/-- `SiteCache::default()`: every field absent. -/
def SiteCache.default : SiteCache :=
  { last_retry_after := none, last_headers := none, last_body := none,
    last_fetch_time := none }

/-- From `struct SiteConfig` in `src/main.rs`. -/
structure SiteConfig where
  name : String
  feed_url : String
  deriving Repr, DecidableEq

/-- A raw header value from the transport: `HeaderValue::to_str` either
yields text or fails (non-visible-ASCII bytes). -/
inductive HeaderVal where
  | text (s : String)
  | invalid
  deriving Repr, DecidableEq

/-- `HeaderValue::to_str`, as an `Option`. -/
def HeaderVal.toStr : HeaderVal → Option String
  | .text s => some s
  | .invalid => none

/-- Reading the response body (`res.text().await`): the transport either
delivers the decoded text or fails mid-read. -/
inductive BodyRead where
  | ok (s : String)
  | failed
  deriving Repr, DecidableEq

/-- What the transport did for one dispatched request: `req.send().await`
either fails outright or yields a response with a status code, response
headers, and a body read outcome. -/
inductive FetchOutcome where
  | sendFailed
  | response (status : Nat) (headers : List (String × HeaderVal)) (body : BodyRead)
  deriving Repr, DecidableEq

/-- The error cases `query_site` can surface (each `anyhow` context in the
source becomes one constructor). -/
inductive FetchErr where
  /-- `req.send()` failed ("Error fetching feed"). -/
  | sendFailed
  /-- A response header value was not valid text ("Error parsing HTTP headers"). -/
  | headerDecodeFailed
  /-- Reading the response body failed ("Failed to read feed contents"). -/
  | bodyReadFailed
  /-- `bail!("Received error status code {status}")` for 4xx/5xx. -/
  | errorStatus (status : Nat)
  /-- `bail!("Received unexpected status code {status}")` otherwise. -/
  | unexpectedStatus (status : Nat)
  deriving Repr, DecidableEq

/-- The request actually dispatched, when one is: the URL plus the
conditional header attached from the cached headers (lines 48-62 of
`src/cache.rs`). -/
structure Request where
  url : String
  condHeader : Option (String × String)
  deriving Repr, DecidableEq

/-- Lines 49-62: attach `if-none-match` from a cached `etag`, else
`if-modified-since` from a cached `last-modified`, else nothing. -/
def conditionalHeader (cache : SiteCache) : Option (String × String) :=
  match cache.last_headers with
  | none => none
  | some last_headers =>
    match last_headers.lookup "etag" with
    | some etag => some ("if-none-match", etag)
    | none =>
      match last_headers.lookup "last-modified" with
      | some lm => some ("if-modified-since", lm)
      | none => none

/-- `StatusCode::is_client_error`. -/
def isClientError (s : Nat) : Bool := 400 ≤ s ∧ s ≤ 499

/-- `StatusCode::is_server_error`. -/
def isServerError (s : Nat) : Bool := 500 ≤ s ∧ s ≤ 599

/-- Rust `str::parse::<u64>`: an optional `+` or `-` sign, then one or
more ASCII digits, folded with overflow checks (growth is monotone, so
an intermediate overflow happens exactly when the final value reaches
`2^64`; a `-` sign underflows on the first non-zero digit, so only an
all-zero digit string parses under it). -/
def parseU64 (s : String) : Option Nat :=
  match s.toList with
  | [] => none
  | c :: rest =>
    let signed := if c = '+' then (false, rest)
      else if c = '-' then (true, rest)
      else (false, c :: rest)
    let digits := signed.2
    if digits = [] then none
    else if digits.all (·.isDigit) then
      let v : Nat := digits.foldl (fun acc d => acc * 10 + (d.toNat - 48)) 0
      if signed.1 then (if v = 0 then some 0 else none)
      else if v < 2 ^ 64 then some v else none
    else none

/-- Collecting response headers on a 200 (lines 68-83): each value must be
valid text; the first invalid value fails the whole collection. The
resulting map is modelled as the association list in iteration order. -/
def collectHeaders : List (String × HeaderVal) → Option (List (String × String))
  | [] => some []
  | (k, v) :: rest =>
    match v.toStr with
    | none => none
    | some s => (collectHeaders rest).map (fun tl => (k, s) :: tl)

/-- `HeaderMap::get` on the response headers (first entry for the key). -/
def headerGet (headers : List (String × HeaderVal)) (key : String) : Option HeaderVal :=
  headers.lookup key

/-- Decidable equality for `Except`, so that concrete runs can be checked
by `decide`. -/
instance {ε α : Type} [DecidableEq ε] [DecidableEq α] :
    DecidableEq (Except ε α) := fun
  | .ok a, .ok b =>
    if h : a = b then .isTrue (by rw [h]) else .isFalse (by simp [h])
  | .ok _, .error _ => .isFalse (by simp)
  | .error _, .ok _ => .isFalse (by simp)
  | .error e, .error f =>
    if h : e = f then .isTrue (by rw [h]) else .isFalse (by simp [h])

/-- The observable outcome of one `query_site` call: the returned
`Result`, the final state of the `&mut SiteCache`, and the request that
was dispatched (`none` when the call returned before any network I/O). -/
structure QueryResult where
  result : Except FetchErr Unit
  cache : SiteCache
  sent : Option Request
  deriving Repr, DecidableEq

/-- `query_site` from `src/cache.rs`, lines 12-119.

`now` is `SystemTime::now()` taken at entry (line 18); `respTime` stands
for the later `SystemTime::now()` calls made while handling the response
(lines 90, 96, 107). `net` is what the transport does if a request is
dispatched. -/
def query_site (min_fetch_interval : Nat) (site : SiteConfig)
    (cache : SiteCache) (now : Nat) (net : FetchOutcome) (respTime : Nat) :
    QueryResult :=
  -- Check if we've recently fetched, so we don't spam.
  if cache.last_fetch_time.any (fun time => time + min_fetch_interval > now) then
    { result := .ok (), cache := cache, sent := none }
  -- Check if we've been asked to retry later.
  else if cache.last_retry_after.any (fun retry_after => retry_after ≥ now) then
    { result := .ok (), cache := cache, sent := none }
  else
    let req : Request := { url := site.feed_url, condHeader := conditionalHeader cache }
    match net with
    | .sendFailed => { result := .error .sendFailed, cache := cache, sent := some req }
    | .response status headers body =>
      if status = 200 then
        match collectHeaders headers with
        | none => { result := .error .headerDecodeFailed, cache := cache, sent := some req }
        | some hm =>
          -- the assignment to `last_headers` (line 68) happens before the
          -- body is read (line 85)
          let cache1 := { cache with last_headers := some hm }
          match body with
          | .failed => { result := .error .bodyReadFailed, cache := cache1, sent := some req }
          | .ok text =>
            { result := .ok (),
              cache := { cache1 with
                last_body := some text,
                last_fetch_time := some respTime,
                last_retry_after := none },
              sent := some req }
      else if status = 304 then
        { result := .ok (),
          cache := { cache with last_fetch_time := some respTime },
          sent := some req }
      else if status = 429 then
        match headerGet headers "retry-after" with
        | some retry_after =>
          match retry_after.toStr.bind parseU64 with
          | none => { result := .ok (), cache := cache, sent := some req }
          | some interval =>
            { result := .ok (),
              cache := { cache with last_retry_after := some (respTime + interval) },
              sent := some req }
        | none => { result := .ok (), cache := cache, sent := some req }
      else if ¬ isClientError status ∧ ¬ isServerError status then
        { result := .error (.unexpectedStatus status), cache := cache, sent := some req }
      else
        { result := .error (.errorStatus status), cache := cache, sent := some req }

/-! ### Bulk save (`CacheManager::save`) and the fetch loop of `main` -/

/-- Outcome of one site's `save_for_site` future inside `CacheManager::save`. -/
inductive SaveOutcome where
  | ok
  | failed (e : String)
  deriving Repr, DecidableEq

/-- A save error with the source name attached, from
`.with_context(|| format!("Failed to save cache for {}", site))`. -/
structure SaveErr where
  site : String
  cause : String
  deriving Repr, DecidableEq

/-- `CacheManager::save` (`src/cache.rs` lines 171-189): every per-site
save future is pushed into a `FuturesUnordered`; the drain loop
`while let Some(res) = saves.next().await { res?; }` consumes results in
completion order and returns on the first error, dropping (cancelling)
the futures that have not yet completed. The model takes the sites paired
with their save outcomes, ordered by completion, and returns the `Result`
together with the list of sites whose save ran to completion. -/
def CacheManager.save : List (String × SaveOutcome) → Except SaveErr Unit × List String
  | [] => (.ok (), [])
  | (site, .ok) :: rest =>
    let r := CacheManager.save rest
    (r.1, site :: r.2)
  | (site, .failed e) :: _rest => (.error { site := site, cause := e }, [site])

/-- What happens for one site of the configuration in `main`'s fetch loop:
the outcome of `caches.get_mut(site)` (loading the cache file can fail)
and, when that succeeds, the outcome of `cache::query_site`. -/
structure SiteStep where
  site : String
  load : Except String Unit
  fetch : Except FetchErr Unit
  deriving Repr

/-- The error `main`'s fetch loop stops with, with the context attached at
each `?` site. -/
inductive MainErr where
  /-- "Error reading cache for {site}" -/
  | loadErr (site : String) (e : String)
  /-- "Error fetching feed" -/
  | fetchErr (e : FetchErr)
  deriving Repr, DecidableEq

/-- The fetch loop of `main` (`src/main.rs` lines 100-105): sites are
processed in configuration order; the `?` on `get_mut` and on
`query_site` propagates the first failure out of the loop, ending the
run. Returns the result together with the list of sites for which
`query_site` was invoked. -/
def mainFetchLoop : List SiteStep → Except MainErr Unit × List String
  | [] => (.ok (), [])
  | step :: rest =>
    match step.load with
    | .error e => (.error (.loadErr step.site e), [])
    | .ok () =>
      match step.fetch with
      | .error e => (.error (.fetchErr e), [step.site])
      | .ok () =>
        let r := mainFetchLoop rest
        (r.1, step.site :: r.2)

/-! ### Filename derivation (`SiteCache::cache_file_for_name`) -/

/-- The Unicode character operations `cache_file_for_name` uses
(`char::is_alphanumeric`, `char::is_whitespace`, `char::to_lowercase`).
They live in the Rust standard library's Unicode tables, external to the
repository, so the model abstracts over them; `toLowercase` returns the
possibly multi-character lowercase mapping as a list. -/
structure UnicodeTables where
  isAlphanumeric : Char → Bool
  isWhitespace : Char → Bool
  toLowercase : Char → List Char

/-- The per-character step of the `filter_map` in `cache_file_for_name`
(`src/cache.rs` lines 269-282): an alphanumeric character maps to its
lowercase form, but is dropped when the lowercase mapping is not exactly
one character; whitespace, `-` and `_` map to `-`; everything else is
dropped. -/
def cacheFileChar (u : UnicodeTables) (c : Char) : Option Char :=
  if u.isAlphanumeric c then
    match u.toLowercase c with
    | [lower] => some lower
    | _ => none
  else if u.isWhitespace c || c == '-' || c == '_' then some '-'
  else none

/-- `SiteCache::cache_file_for_name` (`src/cache.rs` lines 266-286), over
lists of characters: filter-map each character and append the fixed
`.lz4` extension. -/
def cache_file_for_name (u : UnicodeTables) (name : List Char) : List Char :=
  (name.filterMap (cacheFileChar u)) ++ ".lz4".toList

/-- A concrete instance of the Unicode operations, correct on the ASCII
range (Lean's `Char.isAlphanum`, `Char.toLower` are the ASCII fragments
of the Rust table lookups). Used to instantiate theorems at concrete
inputs. -/
def asciiTables : UnicodeTables where
  isAlphanumeric c := c.isAlphanum
  isWhitespace c := c = ' ' || c = '\t' || c = '\n' || c = '\r'
  toLowercase c := [c.toLower]

/-! ### Persistent store: serialization model

`save_for_site` runs `postcard::to_stdvec` then an lz4 frame encoder and
writes the file; `load_for_site` reads the file, decodes the lz4 frame
and runs `postcard::from_bytes`. Both codecs are external crates. The
postcard layer is modelled concretely below (postcard is varint-based;
field order is declaration order; `Option` is a 0/1 tag; collections are
length-prefixed; the model encodes strings at the Unicode-scalar level —
one varint per character — where postcard stores byte length plus UTF-8
bytes, a byte-layout detail that is not part of any contract). The lz4
frame layer enters the model as an abstract compress/decompress pair. -/

/-- LEB128-style unsigned varint, as postcard encodes integers and
collection lengths. -/
def encVarint (n : Nat) : List Nat :=
  if n < 128 then [n]
  else (128 + n % 128) :: encVarint (n / 128)
decreasing_by exact Nat.div_lt_self (by omega) (by omega)

/-- Decode a varint, returning the value and the remaining bytes. -/
def decVarint : List Nat → Option (Nat × List Nat)
  | [] => none
  | b :: bs =>
    if b < 128 then some (b, bs)
    else
      match decVarint bs with
      | some (m, rest) => some ((b - 128) + 128 * m, rest)
      | none => none

/-- Encode a list of characters, one varint per Unicode scalar value. -/
def encChars : List Char → List Nat
  | [] => []
  | c :: cs => encVarint c.toNat ++ encChars cs

/-- Decode `n` characters. -/
def decChars : Nat → List Nat → Option (List Char × List Nat)
  | 0, l => some ([], l)
  | n + 1, l =>
    match decVarint l with
    | none => none
    | some (m, r) =>
      match decChars n r with
      | none => none
      | some (cs, r2) => some (Char.ofNat m :: cs, r2)

/-- Encode a string: its length followed by its characters. -/
def encString (s : String) : List Nat :=
  encVarint s.toList.length ++ encChars s.toList

/-- Decode a string. -/
def decString (l : List Nat) : Option (String × List Nat) :=
  match decVarint l with
  | none => none
  | some (n, r) =>
    match decChars n r with
    | none => none
    | some (cs, r2) => some (String.mk cs, r2)

/-- serde serializes a `SystemTime` as whole seconds plus nanoseconds;
the model keeps whole seconds, so the nanosecond field is 0. -/
def encTime (t : Nat) : List Nat :=
  encVarint t ++ encVarint 0

/-- Decode a time (seconds, discarding the nanosecond field). -/
def decTime (l : List Nat) : Option (Nat × List Nat) :=
  match decVarint l with
  | none => none
  | some (secs, r) =>
    match decVarint r with
    | none => none
    | some (_, r2) => some (secs, r2)

/-- postcard encodes `Option` as a 0 tag for `None` and a 1 tag followed
by the value for `Some`. -/
def encOption (f : α → List Nat) : Option α → List Nat
  | none => [0]
  | some a => 1 :: f a

/-- Decode an `Option`. -/
def decOption (f : List Nat → Option (α × List Nat)) :
    List Nat → Option (Option α × List Nat)
  | [] => none
  | b :: bs =>
    if b = 0 then some (none, bs)
    else if b = 1 then
      match f bs with
      | none => none
      | some (a, r) => some (some a, r)
    else none

/-- Encode the entries of the header map, in iteration order. -/
def encPairs : List (String × String) → List Nat
  | [] => []
  | (k, v) :: rest => encString k ++ encString v ++ encPairs rest

/-- Decode `n` header-map entries. -/
def decPairs : Nat → List Nat → Option (List (String × String) × List Nat)
  | 0, l => some ([], l)
  | n + 1, l =>
    match decString l with
    | none => none
    | some (k, r) =>
      match decString r with
      | none => none
      | some (v, r2) =>
        match decPairs n r2 with
        | none => none
        | some (ps, r3) => some ((k, v) :: ps, r3)

/-- Encode the header map: entry count, then the entries. -/
def encMap (m : List (String × String)) : List Nat :=
  encVarint m.length ++ encPairs m

/-- Decode the header map. -/
def decMap (l : List Nat) : Option (List (String × String) × List Nat) :=
  match decVarint l with
  | none => none
  | some (n, r) =>
    match decPairs n r with
    | none => none
    | some (m, r2) => some (m, r2)

/-- The postcard encoding of a `SiteCache`: the four `Option` fields in
declaration order. -/
def encSiteCache (c : SiteCache) : List Nat :=
  encOption encTime c.last_retry_after ++ encOption encMap c.last_headers ++
    encOption encString c.last_body ++ encOption encTime c.last_fetch_time

/-- Decode a `SiteCache`. -/
def decSiteCache (l : List Nat) : Option (SiteCache × List Nat) :=
  match decOption decTime l with
  | none => none
  | some (lra, r1) =>
    match decOption decMap r1 with
    | none => none
    | some (lh, r2) =>
      match decOption decString r2 with
      | none => none
      | some (lb, r3) =>
        match decOption decTime r3 with
        | none => none
        | some (lft, r4) =>
          some ({ last_retry_after := lra, last_headers := lh,
                  last_body := lb, last_fetch_time := lft }, r4)

/-! ### Persistent store: files -/

/-- The cache directory, as the bytes stored under each file name. -/
def FileSys : Type := List Char → Option (List Nat)

/-- `SiteCache::save_for_site` (`src/cache.rs` lines 235-256), on the
successful-write path: postcard-encode the record, compress it with the
lz4 frame encoder (the abstract `compress` parameter), and write it to
the file named by `cache_file_for_name`. -/
def save_for_site (u : UnicodeTables) (compress : List Nat → List Nat)
    (fs : FileSys) (cache : SiteCache) (site_name : List Char) : FileSys :=
  fun path =>
    if path = cache_file_for_name u site_name then
      some (compress (encSiteCache cache))
    else fs path

/-- The errors `load_for_site` can surface for a file that exists. -/
inductive LoadErr where
  /-- "Failed to read cache file": the lz4 frame decoder failed. -/
  | decompressFailed
  /-- "Failed to decode cache file": postcard decoding failed. -/
  | decodeFailed
  deriving Repr, DecidableEq

/-- `SiteCache::load_for_site` (`src/cache.rs` lines 205-232): open the
file named by `cache_file_for_name`; a missing file yields the empty
default record; otherwise decompress (abstract `decompress` parameter)
and postcard-decode. -/
def load_for_site (u : UnicodeTables) (decompress : List Nat → Option (List Nat))
    (fs : FileSys) (name : List Char) : Except LoadErr SiteCache :=
  match fs (cache_file_for_name u name) with
  | none => .ok SiteCache.default
  | some bytes =>
    match decompress bytes with
    | none => .error .decompressFailed
    | some encoded =>
      match decSiteCache encoded with
      | none => .error .decodeFailed
      | some (c, _) => .ok c

/-- `filenameFor` as the specification phrases it: for each character, if
alphanumeric, take its lower-case form but drop the character entirely if
lower-casing is not a single-character mapping; if whitespace, `-`, or
`_`, emit `-`; otherwise drop the character; then append a fixed
extension. -/
def filenameFor_spec (u : UnicodeTables) (name : List Char) : List Char :=
  (name.filterMap (fun c =>
    if u.isAlphanumeric c then
      match u.toLowercase c with
      | [l] => some l
      | _ => none
    else if u.isWhitespace c || c == '-' || c == '_' then some '-'
    else none)) ++ ".lz4".toList

/-! ### Serialization round-trip lemmas -/

theorem decVarint_enc (n : Nat) (rest : List Nat) :
    decVarint (encVarint n ++ rest) = some (n, rest) := by
  induction n using Nat.strong_induction_on with
  | _ n ih =>
    rw [encVarint]
    by_cases h : n < 128
    · simp [h, decVarint]
    · rw [if_neg h, List.cons_append, decVarint]
      simp only [if_neg (show ¬ (128 + n % 128 < 128) by omega),
        ih (n / 128) (Nat.div_lt_self (by omega) (by omega))]
      have hn : (128 + n % 128 - 128) + 128 * (n / 128) = n := by omega
      rw [hn]

theorem decChars_enc (cs : List Char) (rest : List Nat) :
    decChars cs.length (encChars cs ++ rest) = some (cs, rest) := by
  induction cs with
  | nil => simp [encChars, decChars]
  | cons c cs ih =>
    simp only [List.length_cons, encChars, List.append_assoc, decChars,
      decVarint_enc, ih, Char.ofNat_toNat]

theorem decString_enc (s : String) (rest : List Nat) :
    decString (encString s ++ rest) = some (s, rest) := by
  simp only [encString, decString, List.append_assoc, decVarint_enc,
    decChars_enc]
  cases s
  rfl

theorem decTime_enc (t : Nat) (rest : List Nat) :
    decTime (encTime t ++ rest) = some (t, rest) := by
  simp only [encTime, decTime, List.append_assoc, decVarint_enc]

theorem decOption_enc {α : Type} (f : α → List Nat)
    (df : List Nat → Option (α × List Nat))
    (hf : ∀ a rest, df (f a ++ rest) = some (a, rest)) (o : Option α)
    (rest : List Nat) :
    decOption df (encOption f o ++ rest) = some (o, rest) := by
  cases o with
  | none => simp [encOption, decOption]
  | some a => simp [encOption, decOption, hf]

theorem decPairs_enc (ps : List (String × String)) (rest : List Nat) :
    decPairs ps.length (encPairs ps ++ rest) = some (ps, rest) := by
  induction ps with
  | nil => simp [encPairs, decPairs]
  | cons p ps ih =>
    obtain ⟨k, v⟩ := p
    simp only [List.length_cons, encPairs, List.append_assoc, decPairs,
      decString_enc, ih]

theorem decMap_enc (m : List (String × String)) (rest : List Nat) :
    decMap (encMap m ++ rest) = some (m, rest) := by
  simp only [encMap, decMap, List.append_assoc, decVarint_enc, decPairs_enc]

theorem decSiteCache_enc (c : SiteCache) (rest : List Nat) :
    decSiteCache (encSiteCache c ++ rest) = some (c, rest) := by
  simp only [encSiteCache, decSiteCache, List.append_assoc,
    decOption_enc encTime decTime decTime_enc,
    decOption_enc encMap decMap decMap_enc,
    decOption_enc encString decString decString_enc]

/-! ### Claim theorems -/

/-- C8: saving any `SiteCache` through the persistent store (serialize,
compress, write) and loading it back under the same source name
reproduces a record equal to the original in every field, for every
compress/decompress pair satisfying the lz4 frame codec's round-trip
contract — in particular for records with all four fields populated,
non-ASCII header values and a multi-entry header map. -/
theorem C8_save_load_round_trip (u : UnicodeTables)
    (compress : List Nat → List Nat) (decompress : List Nat → Option (List Nat))
    (hcodec : ∀ b, decompress (compress b) = some b)
    (fs : FileSys) (c : SiteCache) (name : List Char) :
    load_for_site u decompress (save_for_site u compress fs c name) name =
      .ok c := by
  have hdec : decSiteCache (encSiteCache c) = some (c, []) := by
    have h := decSiteCache_enc c []
    rwa [List.append_nil] at h
  simp only [load_for_site, save_for_site, eq_self_iff_true, if_true,
    hcodec, hdec]

/-- Witness for C8: a record with all four fields populated, non-ASCII
header values and a two-entry header map survives a save/load round trip
under the name "My Site". -/
theorem C8_witness :
    load_for_site asciiTables Option.some
      (save_for_site asciiTables id (fun _ => none)
        { last_retry_after := some 1111,
          last_headers := some [("etag", "\"véñ-42\""),
                                ("content-type", "application/rss+xml")],
          last_body := some "<rss>日本語のフィード</rss>",
          last_fetch_time := some 1700000000 }
        "My Site".toList)
      "My Site".toList =
      .ok { last_retry_after := some 1111,
            last_headers := some [("etag", "\"véñ-42\""),
                                  ("content-type", "application/rss+xml")],
            last_body := some "<rss>日本語のフィード</rss>",
            last_fetch_time := some 1700000000 } :=
  C8_save_load_round_trip asciiTables id Option.some (fun _ => rfl)
    (fun _ => none) _ _

/-- C4: when `last_fetch_time` is set and within `min_fetch_interval` of
the call time, `query_site` dispatches no request, returns `Ok`, and
leaves every field of the record unchanged, whatever the transport would
have done. -/
theorem C4_min_interval_skip (mfi : Nat) (site : SiteConfig)
    (cache : SiteCache) (now : Nat) (net : FetchOutcome) (respTime : Nat)
    (t : Nat) (ht : cache.last_fetch_time = some t) (hrecent : t + mfi > now) :
    query_site mfi site cache now net respTime =
      { result := .ok (), cache := cache, sent := none } := by
  simp [query_site, ht, hrecent]

/-- Witness for C4: a record fetched at time 100 is not re-fetched at
time 200 under a 300-second minimum interval, even when the transport
would have failed. -/
theorem C4_witness :
    query_site 300 { name := "s", feed_url := "u" }
      { last_retry_after := none, last_headers := none, last_body := none,
        last_fetch_time := some 100 } 200 .sendFailed 201 =
      { result := .ok (),
        cache := { last_retry_after := none, last_headers := none,
                   last_body := none, last_fetch_time := some 100 },
        sent := none } :=
  C4_min_interval_skip 300 _ _ 200 .sendFailed 201 100 rfl (by decide)

/-- C10: a 429 response whose `retry-after` header parses as a
non-negative integer changes only `last_retry_after`; the record's
`last_fetch_time`, `last_headers` and `last_body` are untouched (so the
minimum-fetch-interval gate is not restarted), and success is reported. -/
theorem C10_429_only_retry_after (mfi : Nat) (site : SiteConfig)
    (cache : SiteCache) (now respTime : Nat)
    (headers : List (String × HeaderVal)) (body : BodyRead)
    (h1 : cache.last_fetch_time.any (fun t => t + mfi > now) = false)
    (h2 : cache.last_retry_after.any (fun r => r ≥ now) = false)
    (s : String) (n : Nat)
    (hget : headerGet headers "retry-after" = some (.text s))
    (hparse : parseU64 s = some n) :
    query_site mfi site cache now (.response 429 headers body) respTime =
      { result := .ok (),
        cache := { cache with last_retry_after := some (respTime + n) },
        sent := some { url := site.feed_url,
                       condHeader := conditionalHeader cache } } := by
  simp [query_site, h1, h2, hget, HeaderVal.toStr, hparse]

/-- Witness for C10: a 429 with `retry-after: 120` at time 1000 only
moves `last_retry_after` to 1120, with headers, body and fetch time
intact. -/
theorem C10_witness :
    query_site 60 { name := "s", feed_url := "u" }
      { last_retry_after := none, last_headers := some [("etag", "\"e\"")],
        last_body := some "b", last_fetch_time := some 900 } 1000
      (.response 429 [("retry-after", .text "120")] (.ok "ignored")) 1000 =
      { result := .ok (),
        cache := { last_retry_after := some 1120,
                   last_headers := some [("etag", "\"e\"")],
                   last_body := some "b", last_fetch_time := some 900 },
        sent := some { url := "u",
                       condHeader := some ("if-none-match", "\"e\"") } } := by
  have h := C10_429_only_retry_after 60 { name := "s", feed_url := "u" }
    { last_retry_after := none, last_headers := some [("etag", "\"e\"")],
      last_body := some "b", last_fetch_time := some 900 } 1000 1000
    [("retry-after", .text "120")] (.ok "ignored") (by decide) (by decide)
    "120" 120 (by decide) (by decide)
  exact h.trans (by decide)

/-- C6: a 429 whose `retry-after` header is absent, or present but not
valid text or not parsing as a non-negative integer, leaves the whole
record (including `last_retry_after`) unchanged and returns success. -/
theorem C6_malformed_retry_after (mfi : Nat) (site : SiteConfig)
    (cache : SiteCache) (now respTime : Nat)
    (headers : List (String × HeaderVal)) (body : BodyRead)
    (h1 : cache.last_fetch_time.any (fun t => t + mfi > now) = false)
    (h2 : cache.last_retry_after.any (fun r => r ≥ now) = false)
    (hmal : (headerGet headers "retry-after").all
      (fun v => (v.toStr.bind parseU64).isNone) = true) :
    query_site mfi site cache now (.response 429 headers body) respTime =
      { result := .ok (), cache := cache,
        sent := some { url := site.feed_url,
                       condHeader := conditionalHeader cache } } := by
  cases hget : headerGet headers "retry-after" with
  | none => simp [query_site, h1, h2, hget]
  | some v =>
    rw [hget] at hmal
    simp only [Option.all_some] at hmal
    cases hp : v.toStr.bind parseU64 with
    | some k => rw [hp] at hmal; simp at hmal
    | none => simp [query_site, h1, h2, hget, hp]

/-- Witness for C6: a 429 with `retry-after: soon` at time 1000 changes
nothing and succeeds. -/
theorem C6_witness :
    query_site 60 { name := "s", feed_url := "u" }
      { last_retry_after := some 50, last_headers := none,
        last_body := none, last_fetch_time := none } 1000
      (.response 429 [("retry-after", .text "soon")] (.ok "ignored")) 1003 =
      { result := .ok (),
        cache := { last_retry_after := some 50, last_headers := none,
                   last_body := none, last_fetch_time := none },
        sent := some { url := "u", condHeader := none } } := by
  have h := C6_malformed_retry_after 60 { name := "s", feed_url := "u" }
    { last_retry_after := some 50, last_headers := none,
      last_body := none, last_fetch_time := none } 1000 1003
    [("retry-after", .text "soon")] (.ok "ignored")
    (by decide) (by decide) (by decide)
  exact h.trans (by decide)

/-- Helper: whenever both skip gates are open, `query_site` dispatches
exactly one request, whatever the transport then does. -/
theorem query_site_sent_of_gates (mfi : Nat) (site : SiteConfig)
    (cache : SiteCache) (now : Nat) (net : FetchOutcome) (respTime : Nat)
    (h1 : cache.last_fetch_time.any (fun t => t + mfi > now) = false)
    (h2 : cache.last_retry_after.any (fun r => r ≥ now) = false) :
    (query_site mfi site cache now net respTime).sent =
      some { url := site.feed_url, condHeader := conditionalHeader cache } := by
  cases net with
  | sendFailed => simp [query_site, h1, h2]
  | response status headers body =>
    simp only [query_site, h1, h2, Bool.false_eq_true, if_false]
    split
    · split
      · rfl
      · split
        · rfl
        · rfl
    · split
      · rfl
      · split
        · split
          · split
            · rfl
            · rfl
          · rfl
        · split
          · rfl
          · rfl

/-- C5: a 429 whose `retry-after` parses as the integer `n` sets
`last_retry_after` to exactly `n` seconds after the response time and
reports success; any later call made while that moment is still at or
after the current time dispatches no request, and any call made after
the window has passed dispatches one (the minimum-interval gate cannot
interfere, because a fetch time that admitted the 429 attempt also
admits any later attempt). -/
theorem C5_retry_after_window (mfi : Nat) (site : SiteConfig)
    (cache : SiteCache) (now respTime : Nat)
    (headers : List (String × HeaderVal)) (body : BodyRead)
    (h1 : cache.last_fetch_time.any (fun t => t + mfi > now) = false)
    (h2 : cache.last_retry_after.any (fun r => r ≥ now) = false)
    (hnow : now ≤ respTime) (s : String) (n : Nat)
    (hget : headerGet headers "retry-after" = some (.text s))
    (hparse : parseU64 s = some n) :
    query_site mfi site cache now (.response 429 headers body) respTime =
      { result := .ok (),
        cache := { cache with last_retry_after := some (respTime + n) },
        sent := some { url := site.feed_url,
                       condHeader := conditionalHeader cache } } ∧
    (∀ now2 net2 respTime2, now2 ≤ respTime + n →
      (query_site mfi site { cache with last_retry_after := some (respTime + n) }
        now2 net2 respTime2).sent = none) ∧
    (∀ now2 net2 respTime2, respTime + n < now2 →
      (query_site mfi site { cache with last_retry_after := some (respTime + n) }
        now2 net2 respTime2).sent =
        some { url := site.feed_url,
               condHeader := conditionalHeader
                 { cache with last_retry_after := some (respTime + n) } }) := by
  refine ⟨by simp [query_site, h1, h2, hget, HeaderVal.toStr, hparse], ?_, ?_⟩
  · intro now2 net2 respTime2 hle
    by_cases hft : cache.last_fetch_time.any (fun t => t + mfi > now2) = true
    · simp [query_site, hft]
    · simp [query_site, hft, hle]
  · intro now2 net2 respTime2 hgt
    have hft : cache.last_fetch_time.any (fun t => t + mfi > now2) = false := by
      cases hlf : cache.last_fetch_time with
      | none => rfl
      | some t =>
        rw [hlf] at h1
        simp only [Option.any_some, decide_eq_false_iff_not] at h1 ⊢
        omega
    have hra : (some (respTime + n)).any (fun r => decide (r ≥ now2)) = false := by
      simp only [Option.any_some, decide_eq_false_iff_not]
      omega
    exact query_site_sent_of_gates mfi site _ now2 net2 respTime2 hft hra

/-- Witness for C5: a 429 with `retry-after: 120` handled at time 1000
sets the backoff to 1120; an attempt at 1060 dispatches nothing, and an
attempt at 1121 dispatches a request. -/
theorem C5_witness :
    query_site 60 { name := "s", feed_url := "u" }
      { last_retry_after := none, last_headers := none, last_body := none,
        last_fetch_time := some 900 } 1000
      (.response 429 [("retry-after", .text "120")] (.ok "ignored")) 1000 =
      { result := .ok (),
        cache := { last_retry_after := some 1120, last_headers := none,
                   last_body := none, last_fetch_time := some 900 },
        sent := some { url := "u", condHeader := none } } ∧
    (query_site 60 { name := "s", feed_url := "u" }
      { last_retry_after := some 1120, last_headers := none,
        last_body := none, last_fetch_time := some 900 } 1060
      (.response 200 [] (.ok "x")) 1060).sent = none ∧
    (query_site 60 { name := "s", feed_url := "u" }
      { last_retry_after := some 1120, last_headers := none,
        last_body := none, last_fetch_time := some 900 } 1121
      (.response 200 [] (.ok "x")) 1121).sent =
      some { url := "u", condHeader := none } := by
  have h := C5_retry_after_window 60 { name := "s", feed_url := "u" }
    { last_retry_after := none, last_headers := none, last_body := none,
      last_fetch_time := some 900 } 1000 1000
    [("retry-after", .text "120")] (.ok "ignored")
    (by decide) (by decide) (by decide) "120" 120 (by decide) (by decide)
  exact ⟨h.1.trans (by decide),
    h.2.1 1060 (.response 200 [] (.ok "x")) 1060 (by decide),
    (h.2.2 1121 (.response 200 [] (.ok "x")) 1121 (by decide)).trans (by decide)⟩

/-- C7: with both skip gates open and no transport, header-decode or
body-read failure, `query_site` succeeds exactly when the response
status is 200, 304 or 429; a status in the client- or server-error range
(400-599) other than 429 fails with `errorStatus` carrying that status,
and any other status outside 200/304/429 fails with
`unexpectedStatus`. -/
theorem C7_status_classification (mfi : Nat) (site : SiteConfig)
    (cache : SiteCache) (now respTime : Nat) (status : Nat)
    (headers : List (String × HeaderVal)) (body : BodyRead)
    (h1 : cache.last_fetch_time.any (fun t => t + mfi > now) = false)
    (h2 : cache.last_retry_after.any (fun r => r ≥ now) = false)
    (hhdrs : (collectHeaders headers).isSome = true)
    (hbody : body ≠ .failed) :
    ((query_site mfi site cache now (.response status headers body)
        respTime).result = .ok () ↔
      (status = 200 ∨ status = 304 ∨ status = 429)) ∧
    (400 ≤ status → status ≤ 599 → status ≠ 429 →
      (query_site mfi site cache now (.response status headers body)
        respTime).result = .error (.errorStatus status)) ∧
    (¬ (status = 200 ∨ status = 304 ∨ status = 429) →
      ¬ (400 ≤ status ∧ status ≤ 599) →
      (query_site mfi site cache now (.response status headers body)
        respTime).result = .error (.unexpectedStatus status)) := by
  obtain ⟨hm, hmeq⟩ := Option.isSome_iff_exists.mp hhdrs
  obtain ⟨text, rfl⟩ : ∃ t, body = .ok t := by
    cases body with
    | ok t => exact ⟨t, rfl⟩
    | failed => exact absurd rfl hbody
  have key : (query_site mfi site cache now (.response status headers (.ok text))
      respTime).result =
      if status = 200 then .ok ()
      else if status = 304 then .ok ()
      else if status = 429 then .ok ()
      else if ¬ isClientError status ∧ ¬ isServerError status then
        .error (.unexpectedStatus status)
      else .error (.errorStatus status) := by
    by_cases h200 : status = 200
    · simp [query_site, h1, h2, h200, hmeq]
    · by_cases h304 : status = 304
      · simp [query_site, h1, h2, h200, h304]
      · by_cases h429 : status = 429
        · simp only [query_site, h1, h2, Bool.false_eq_true, if_false,
            if_neg h200, if_neg h304, if_pos h429]
          cases hg : headerGet headers "retry-after" with
          | none => simp [hg]
          | some v =>
            cases hp : v.toStr.bind parseU64 with
            | none => simp [hg, hp]
            | some k => simp [hg, hp]
        · simp only [query_site, h1, h2, Bool.false_eq_true, if_false,
            if_neg h200, if_neg h304, if_neg h429]
          split <;> rfl
  refine ⟨?_, ?_, ?_⟩
  · rw [key]
    by_cases h200 : status = 200
    · simp [h200]
    · by_cases h304 : status = 304
      · simp [h200, h304]
      · by_cases h429 : status = 429
        · simp [h200, h304, h429]
        · rw [if_neg h200, if_neg h304, if_neg h429]
          constructor
          · intro hco
            split at hco <;> exact absurd hco (by simp)
          · intro hco
            rcases hco with h | h | h
            · exact absurd h h200
            · exact absurd h h304
            · exact absurd h h429
  · intro hge hle hne
    rw [key, if_neg (by omega), if_neg (by omega), if_neg hne, if_neg]
    simp only [isClientError, isServerError, decide_eq_true_eq]
    omega
  · intro hnot hnr
    push_neg at hnot
    obtain ⟨hn200, hn304, hn429⟩ := hnot
    rw [key, if_neg hn200, if_neg hn304, if_neg hn429, if_pos]
    simp only [isClientError, isServerError, decide_eq_true_eq]
    omega

/-- Witness for C7: a 503 response with decodable headers and a readable
body fails with `errorStatus 503`. -/
theorem C7_witness :
    (query_site 60 { name := "s", feed_url := "u" }
      { last_retry_after := none, last_headers := none, last_body := none,
        last_fetch_time := none } 1000
      (.response 503 [("retry-after", .text "5")] (.ok "oops")) 1000).result =
      .error (.errorStatus 503) :=
  (C7_status_classification 60 { name := "s", feed_url := "u" }
    { last_retry_after := none, last_headers := none, last_body := none,
      last_fetch_time := none } 1000 1000 503
    [("retry-after", .text "5")] (.ok "oops")
    (by decide) (by decide) (by decide) (by decide)).2.1
    (by decide) (by decide) (by decide)

/-- C1 (divergence exhibited): the claim says `last_headers` and
`last_body` are replaced together atomically, with no execution —
including erroring ones — leaving `last_headers` replaced while
`last_body` is not. In the code the assignment to `last_headers`
(line 68 of `src/cache.rs`) precedes reading the body (line 85), so a
200 response whose headers decode but whose body read then fails
returns an error with `last_headers` already replaced and `last_body`
still holding the previous fetch's payload. -/
theorem C1_headers_body_divergence :
    query_site 60 { name := "s", feed_url := "u" }
      { last_retry_after := none,
        last_headers := some [("etag", "\"old\"")],
        last_body := some "old body", last_fetch_time := none } 1000
      (.response 200 [("etag", .text "\"new\"")] .failed) 1001 =
      { result := .error .bodyReadFailed,
        cache := { last_retry_after := none,
                   last_headers := some [("etag", "\"new\"")],
                   last_body := some "old body", last_fetch_time := none },
        sent := some { url := "u",
                       condHeader := some ("if-none-match", "\"old\"") } } := by
  decide

/-- C2 counterexample: with completion order `a` (whose save fails) then
`b`, `CacheManager::save` returns at the failure and the save for `b` is
never driven to completion — refuting the claim that one source's
failure does not prevent attempting the saves of the other sources. -/
theorem C2_counterexample :
    CacheManager.save [("a", .failed "disk full"), ("b", .ok)] =
      (.error { site := "a", cause := "disk full" }, ["a"]) ∧
    "b" ∉ (CacheManager.save [("a", .failed "disk full"), ("b", .ok)]).2 := by
  decide

/-- C2 (amended): `CacheManager::save` reports the first-seen save
failure with the failing source's name attached; saves completing before
the failure are unaffected, but the drain loop returns at the failure,
cancelling the saves that have not yet completed instead of attempting
them all. -/
theorem C2_save_first_error (pre post : List (String × SaveOutcome))
    (site e : String) (hpre : ∀ x ∈ pre, x.2 = SaveOutcome.ok) :
    CacheManager.save (pre ++ (site, .failed e) :: post) =
      (.error { site := site, cause := e }, pre.map Prod.fst ++ [site]) := by
  induction pre with
  | nil => rfl
  | cons x pre ih =>
    obtain ⟨xs, xo⟩ := x
    have hx : xo = .ok := hpre (xs, xo) (List.mem_cons_self _ _)
    subst hx
    simp only [List.cons_append, CacheManager.save, List.map_cons,
      List.append_eq, ih (fun y hy => hpre y (List.mem_cons_of_mem _ hy))]

/-- Witness for C2's amended theorem: completion order `a` (ok), `b`
(fails), `c` (ok) yields the error naming `b`, with only `a` and `b`
having run to completion. -/
theorem C2_witness :
    CacheManager.save [("a", .ok), ("b", .failed "disk full"), ("c", .ok)] =
      (.error { site := "b", cause := "disk full" }, ["a", "b"]) :=
  C2_save_first_error [("a", .ok)] [("c", .ok)] "b" "disk full" (by decide)

/-- C3 counterexample: in `main`'s fetch loop, a fetch failure for the
first source propagates out through `?` and the second source is never
processed — refuting the claim that a failure is caught at the call
boundary and every subsequent source is still processed. -/
theorem C3_counterexample :
    mainFetchLoop
      [{ site := "a", load := .ok (), fetch := .error .sendFailed },
       { site := "b", load := .ok (), fetch := .ok () }] =
      (.error (.fetchErr .sendFailed), ["a"]) ∧
    "b" ∉ (mainFetchLoop
      [{ site := "a", load := .ok (), fetch := .error .sendFailed },
       { site := "b", load := .ok (), fetch := .ok () }]).2 := by
  decide

/-- C3 (amended): the first cache-load or fetch failure in `main`'s loop
is wrapped with per-source context and propagates out of the loop,
aborting the run: the sources before the failing one are processed, and
the sources after it are not. -/
theorem C3_failure_propagates (pre post : List SiteStep) (step : SiteStep)
    (hpre : ∀ s ∈ pre, s.load = .ok () ∧ s.fetch = .ok ()) :
    (∀ e, step.load = .error e →
      mainFetchLoop (pre ++ step :: post) =
        (.error (.loadErr step.site e), pre.map SiteStep.site)) ∧
    (∀ e, step.load = .ok () → step.fetch = .error e →
      mainFetchLoop (pre ++ step :: post) =
        (.error (.fetchErr e), pre.map SiteStep.site ++ [step.site])) := by
  induction pre with
  | nil =>
    constructor
    · intro e he
      simp [mainFetchLoop, he]
    · intro e hl hf
      simp [mainFetchLoop, hl, hf]
  | cons x pre ih =>
    obtain ⟨hxl, hxf⟩ := hpre x (List.mem_cons_self _ _)
    have ih2 := ih (fun y hy => hpre y (List.mem_cons_of_mem _ hy))
    constructor
    · intro e he
      simp only [List.cons_append, mainFetchLoop, hxl, hxf, List.map_cons,
        List.append_eq, ih2.1 e he]
    · intro e hl hf
      simp only [List.cons_append, mainFetchLoop, hxl, hxf, List.map_cons,
        List.append_eq, ih2.2 e hl hf]

/-- Witness for C3's amended theorem: sources `a`, `b`, `c` where `b`'s
fetch fails yield the contextualized error after processing only `a`
and `b`. -/
theorem C3_witness :
    mainFetchLoop
      [{ site := "a", load := .ok (), fetch := .ok () },
       { site := "b", load := .ok (), fetch := .error .sendFailed },
       { site := "c", load := .ok (), fetch := .ok () }] =
      (.error (.fetchErr .sendFailed), ["a", "b"]) :=
  (C3_failure_propagates [⟨"a", .ok (), .ok ()⟩] [⟨"c", .ok (), .ok ()⟩]
    ⟨"b", .ok (), .error .sendFailed⟩ (by decide)).2 .sendFailed rfl rfl

/-- C9: each character of the source name is mapped exactly as the
specification describes (the code's filter-map over the name equals the
spec-side character mapping, fixed extension appended); the derivation
is deterministic; and two names differing only in the case of ASCII
letters produce the same filename, for any Unicode tables that treat
ASCII letters the standard way. -/
theorem C9_filename_derivation (u : UnicodeTables)
    (hAlpha : ∀ c : Char, c.isAlpha →
      u.isAlphanumeric c = true ∧ u.toLowercase c = [c.toLower])
    (name name2 : List Char)
    (hcase : List.Forall₂
      (fun c d => c = d ∨ (c.isAlpha ∧ d.isAlpha ∧ c.toLower = d.toLower))
      name name2) :
    cache_file_for_name u name = filenameFor_spec u name ∧
    cache_file_for_name u name = cache_file_for_name u name ∧
    cache_file_for_name u name = cache_file_for_name u name2 := by
  refine ⟨rfl, rfl, ?_⟩
  unfold cache_file_for_name
  congr 1
  induction hcase with
  | nil => rfl
  | @cons c d cs ds hcd htail ih =>
    have hch : cacheFileChar u c = cacheFileChar u d := by
      rcases hcd with rfl | ⟨hc, hd, hlow⟩
      · rfl
      · obtain ⟨hc1, hc2⟩ := hAlpha c hc
        obtain ⟨hd1, hd2⟩ := hAlpha d hd
        simp [cacheFileChar, hc1, hc2, hd1, hd2, hlow]
    simp [List.filterMap_cons, hch, ih]

/-- Witness for C9: "My Feed" satisfies the spec-side description, the
derivation is deterministic, and "my fEED" yields the same filename. -/
theorem C9_witness :
    cache_file_for_name asciiTables "My Feed".toList =
      filenameFor_spec asciiTables "My Feed".toList ∧
    cache_file_for_name asciiTables "My Feed".toList =
      cache_file_for_name asciiTables "My Feed".toList ∧
    cache_file_for_name asciiTables "My Feed".toList =
      cache_file_for_name asciiTables "my fEED".toList :=
  C9_filename_derivation asciiTables
    (fun c hc => ⟨by simp [asciiTables, Char.isAlphanum, hc], rfl⟩)
    "My Feed".toList "my fEED".toList (by decide)

end Jarss
